import Mathlib

/-!
Verification of the DealScout deal-intake and flip-tracking backend.

The Python source is shallowly embedded:

* `Decimal` currency values become `ℚ`.  `Decimal.quantize(Decimal("0.01"))`
  (banker's rounding, the default `ROUND_HALF_EVEN` context) becomes
  `quantize2`.  A value stored in a `Numeric(10, 2)` column is an integer
  number of cents; the predicate `IsCents` captures that.
* `Optional[...]` fields become `Option ...`; Python truthiness of optional
  strings / decimals / ints is made explicit (`strTruthy`, `qTruthy`,
  `intTruthy`).
* fallible calls are `Except Err ...`; external collaborators (classifier,
  pricing API, notification transport) are supplied as oracle records, since
  their sources catch all exceptions internally and surface `None`/`False`.
* the SQLAlchemy session becomes explicit list-of-records state; a run that
  raises before `commit` leaves the store unchanged (rollback).
-/

namespace DealScout

abbrev Err := String

/-- Python truthiness of an `Optional[str]`: `None` and `""` are falsy. -/
def strTruthy : Option String → Bool
  | none => false
  | some s => s ≠ ""

/-- Python truthiness of an `Optional[Decimal]`: `None` and `0` are falsy. -/
def qTruthy : Option ℚ → Bool
  | none => false
  | some q => q ≠ 0

/-- Python truthiness of an `Optional[int]`: `None` and `0` are falsy. -/
def intTruthy : Option ℤ → Bool
  | none => false
  | some n => n ≠ 0

/-- Round a rational to the nearest integer, ties to the even integer:
the `ROUND_HALF_EVEN` rounding used by Python's default `Decimal` context. -/
def roundHalfEven (q : ℚ) : ℤ :=
  let f := ⌊q⌋
  if q - f < 1/2 then f
  else if 1/2 < q - f then f + 1
  else if f % 2 = 0 then f else f + 1

/-- `x.quantize(Decimal("0.01"))`: round to a whole number of cents. -/
def quantize2 (q : ℚ) : ℚ :=
  (roundHalfEven (q * 100) : ℚ) / 100

/-- A currency value that is a whole number of cents (any value read back
from a `Numeric(10, 2)` column has this form). -/
def IsCents (q : ℚ) : Prop := ∃ n : ℤ, q = n / 100

theorem roundHalfEven_intCast (n : ℤ) : roundHalfEven (n : ℚ) = n := by
  simp [roundHalfEven]

theorem quantize2_isCents (q : ℚ) (h : IsCents q) : quantize2 q = q := by
  obtain ⟨n, rfl⟩ := h
  have h100 : (100 : ℚ) ≠ 0 := by norm_num
  have : (n : ℚ) / 100 * 100 = (n : ℚ) := by field_simp
  rw [quantize2, this, roundHalfEven_intCast]

theorem isCents_sub {a b : ℚ} (ha : IsCents a) (hb : IsCents b) :
    IsCents (a - b) := by
  obtain ⟨m, rfl⟩ := ha
  obtain ⟨n, rfl⟩ := hb
  exact ⟨m - n, by push_cast; ring⟩

/-! ## services/profit_calculator.py -/

/-- `calculate_estimated_profit` from `services/profit_calculator.py`.
`fee_percentage` is the percentage (e.g. `13`); the source converts it to a
fraction via `Decimal(str(fee_percentage / 100))`, which we model exactly as
`fee_percentage / 100`.  The source defaults `fee_percentage` to
`settings.ebay_fee_percentage` and `shipping_estimate` to `0`; defaults are
passed explicitly here. -/
def calculate_estimated_profit (asking_price market_value : Option ℚ)
    (fee_percentage : ℚ) (shipping_estimate : ℚ := 0) : Option ℚ :=
  match asking_price, market_value with
  | some ap, some mv =>
      let fees := mv * (fee_percentage / 100)
      some (quantize2 (mv - ap - fees - shipping_estimate))
  | _, _ => none

/-- `calculate_actual_profit` from `services/profit_calculator.py`. -/
def calculate_actual_profit (buy_price sell_price : ℚ)
    (fees_paid : ℚ := 0) (shipping_cost : ℚ := 0) : ℚ :=
  quantize2 (sell_price - buy_price - fees_paid - shipping_cost)

/-- `is_profitable_deal` from `services/profit_calculator.py` (`min_profit`
defaults to `settings.profit_threshold`, passed explicitly). -/
def is_profitable_deal (asking_price market_value : Option ℚ)
    (min_profit : ℚ) (fee_percentage : ℚ) : Bool :=
  match calculate_estimated_profit asking_price market_value fee_percentage 0 with
  | none => false
  | some p => min_profit ≤ p

/-- ASCII `str.lower()` on a single character (the classifier emits ASCII
feasibility and repair-type words, as do the fixed keyword tables). -/
def lowerChar (c : Char) : Char :=
  if 'A' ≤ c ∧ c ≤ 'Z' then Char.ofNat (c.toNat + 32) else c

/-- Python `s.lower()`, as a character list. -/
def lowerStr (s : String) : List Char := s.data.map lowerChar

/-- Python `s.strip()`: drop whitespace from both ends. -/
def trimChars (l : List Char) : List Char :=
  ((l.dropWhile Char.isWhitespace).reverse.dropWhile Char.isWhitespace).reverse

/-- The `LABOR_ESTIMATES` table from `services/profit_calculator.py`
(keys compared after lowercasing, hence on character lists). -/
def LABOR_ESTIMATES (s : List Char) : Option ℚ :=
  if s = "easy".data then some 15
  else if s = "moderate".data then some 35
  else if s = "difficult".data then some 75
  else if s = "professional".data then some 150
  else none

/-- `DEFAULT_LABOR` from `services/profit_calculator.py`. -/
def DEFAULT_LABOR : ℚ := 50

/-- Does the first character list start with the second one? -/
def charsStartWith : List Char → List Char → Bool
  | _, [] => true
  | [], _ :: _ => false
  | a :: as, b :: bs => a = b && charsStartWith as bs

/-- Does the first character list contain the second as a contiguous run? -/
def charsContain (haystack needle : List Char) : Bool :=
  match haystack with
  | [] => needle.isEmpty
  | _ :: bs => charsStartWith haystack needle || charsContain bs needle

/-- Python's `needle in haystack` on a lowered string. -/
def strContains (haystack : List Char) (needle : String) : Bool :=
  charsContain haystack needle.data

/-- The screen/battery/back-glass keyword test of `estimate_labor_cost`. -/
def kwModerate (l : List Char) : Bool :=
  strContains l "screen" || strContains l "battery" || strContains l "back glass"

/-- The port/charging/button keyword test of `estimate_labor_cost`. -/
def kwDifficult (l : List Char) : Bool :=
  strContains l "port" || strContains l "charging" || strContains l "button"

/-- The board/water/motherboard keyword test of `estimate_labor_cost`. -/
def kwProfessional (l : List Char) : Bool :=
  strContains l "board" || strContains l "water" || strContains l "motherboard"

/-- The cosmetic/scratch/dent keyword test of `estimate_labor_cost`. -/
def kwEasy (l : List Char) : Bool :=
  strContains l "cosmetic" || strContains l "scratch" || strContains l "dent"

/-- `estimate_labor_cost` from `services/profit_calculator.py`.  The source
guard `if repair_feasibility and repair_feasibility.lower() in LABOR_ESTIMATES`
is the `Option.bind` into the table (an empty string is not a table key, so
Python's falsiness of `""` changes nothing). -/
def estimate_labor_cost (repair_feasibility repair_type : Option String) : ℚ :=
  match repair_feasibility.bind (fun f => LABOR_ESTIMATES (lowerStr f)) with
  | some v => v
  | none =>
      match repair_type with
      | some t =>
          let l := lowerStr t
          if kwModerate l then 35
          else if kwDifficult l then 75
          else if kwProfessional l then 150
          else if kwEasy l then 15
          else DEFAULT_LABOR
      | none => DEFAULT_LABOR

/-- The record returned by `calculate_repair_estimate`. -/
structure RepairEstimate where
  part_cost : ℚ
  labor_estimate : ℚ
  total_estimate : ℚ
  deriving Repr, DecidableEq

/-- `calculate_repair_estimate` from `services/profit_calculator.py`. -/
def calculate_repair_estimate (part_cost : Option ℚ)
    (repair_feasibility : Option String := none)
    (repair_type : Option String := none) : RepairEstimate :=
  let labor := estimate_labor_cost repair_feasibility repair_type
  let pc := part_cost.getD 0
  { part_cost := quantize2 pc
    labor_estimate := quantize2 labor
    total_estimate := quantize2 (pc + labor) }

/-- `calculate_true_profit` from `services/profit_calculator.py`. -/
def calculate_true_profit (estimated_profit repair_total : Option ℚ) :
    Option ℚ :=
  match estimated_profit with
  | none => none
  | some ep =>
      match repair_total with
      | none => some ep
      | some rt => some (quantize2 (ep - rt))

/-! ## Deal scoring (`calculate_deal_score` in services/profit_calculator.py) -/

/-- The keyword arguments of `calculate_deal_score`, bundled. -/
structure ScoreInput where
  estimated_profit : Option ℚ := none
  market_value : Option ℚ := none
  condition : Option String := none
  repair_needed : Option Bool := none
  repair_feasibility : Option String := none
  has_photos : Option Bool := none
  photo_quality : Option String := none
  price_data_quality : Option String := none
  num_listings : Option ℤ := none
  deriving Repr, DecidableEq

/-- The record returned by `calculate_deal_score`. -/
structure DealScore where
  deal_score : ℤ
  risk_level : String
  effort_level : String
  demand_indicator : String
  flip_speed_prediction : String
  deriving Repr, DecidableEq

/-- Profit sub-score block of `calculate_deal_score` (40 points max).
The source computes `profit_pct` with `float` division; here it stays in ℚ. -/
def profitScore (i : ScoreInput) : ℤ :=
  match i.estimated_profit, i.market_value with
  | some ep, some mv =>
      if 0 < mv then
        let profit_pct := ep / mv * 100
        if 50 ≤ profit_pct then 40
        else if 35 ≤ profit_pct then 35
        else if 25 ≤ profit_pct then 30
        else if 15 ≤ profit_pct then 22
        else if 10 ≤ profit_pct then 15
        else if 5 ≤ profit_pct then 8
        else 0
      else 0
  | _, _ => 0

/-- Risk sub-score block of `calculate_deal_score` (20 points max, floored
at 0).  `if repair_needed:` is Python truthiness (`some true`); the guard
`if not has_photos:` fires on `none` and on `some false`. -/
def riskScore (i : ScoreInput) : ℤ :=
  let s : ℤ := 20
  let s := if i.repair_needed = some true then
      if i.repair_feasibility = some "professional" then s - 15
      else if i.repair_feasibility = some "difficult" then s - 10
      else if i.repair_feasibility = some "moderate" then s - 5
      else s - 3
    else s
  let s := if i.condition = some "unknown" then s - 5 else s
  let s := if i.has_photos ≠ some true then s - 8
    else if i.photo_quality = some "poor" then s - 3
    else s
  max 0 s

/-- Effort sub-score block of `calculate_deal_score` (20 points max, floored
at 0). -/
def effortScore (i : ScoreInput) : ℤ :=
  let s : ℤ := 20
  let s := if i.repair_needed = some true then
      if i.repair_feasibility = some "professional" ∨
          i.repair_feasibility = some "difficult" then s - 12
      else if i.repair_feasibility = some "moderate" then s - 6
      else s - 3
    else s
  max 0 s

/-- Market-confidence sub-score block of `calculate_deal_score`
(20 points max).  `if num_listings:` is Python truthiness on an int. -/
def marketScore (i : ScoreInput) : ℤ :=
  let s : ℤ :=
    if i.price_data_quality = some "accurate" then 20
    else if i.price_data_quality = some "similar_prices" then 15
    else if i.price_data_quality = some "no_data" then 5
    else 10
  match i.num_listings with
  | some n =>
      if n ≠ 0 then
        if 10 ≤ n then min 20 (s + 5)
        else if n < 3 then max 0 (s - 5)
        else s
      else s
  | none => s

/-- Risk label assignment in `calculate_deal_score`. -/
def riskLevel (i : ScoreInput) : String :=
  if 16 ≤ riskScore i then "low"
  else if 10 ≤ riskScore i then "medium"
  else "high"

/-- Effort label assignment in `calculate_deal_score`. -/
def effortLevel (i : ScoreInput) : String :=
  if 16 ≤ effortScore i then "low"
  else if 10 ≤ effortScore i then "medium"
  else "high"

/-- Demand label assignment in `calculate_deal_score`
(`if num_listings and num_listings >= 10` etc.). -/
def demandIndicator (i : ScoreInput) : String :=
  match i.num_listings with
  | some n =>
      if n ≠ 0 ∧ 10 ≤ n then "high"
      else if n ≠ 0 ∧ 5 ≤ n then "medium"
      else "low"
  | none => "low"

/-- Flip-speed prediction in `calculate_deal_score`. -/
def flipSpeed (i : ScoreInput) : String :=
  if demandIndicator i = "high" ∧ riskLevel i = "low" then "fast"
  else if demandIndicator i = "low" ∨ riskLevel i = "high" then "slow"
  else "medium"

/-- `calculate_deal_score` from `services/profit_calculator.py`. -/
def calculate_deal_score (i : ScoreInput) : DealScore :=
  { deal_score :=
      min 100 (max 0 (profitScore i + riskScore i + effortScore i + marketScore i))
    risk_level := riskLevel i
    effort_level := effortLevel i
    demand_indicator := demandIndicator i
    flip_speed_prediction := flipSpeed i }

/-! ## Data model (app/models.py, plus pipeline-populated attributes)

`models.py` declares the persisted columns; `scheduler.py` and
`services/ebay_orders.py` additionally populate classification, repair,
scoring and eBay-linkage attributes on the same records, so the embedded
records carry the union of both field sets.  Raw JSON payloads
(`item_details`, `variants`, `bundle_items`) are carried as opaque strings;
`ebay_sold_data` stores the structured pricing payload it receives. -/

/-- Aggregate sold-price statistics returned by the eBay lookup service
(`get_market_value` / `get_parts_market_value` result dict): the fields the
pipeline reads are `avg_price` and `num_sales`. -/
structure Pricing where
  avg_price : ℚ
  num_sales : Option ℤ := none
  deriving Repr, DecidableEq

/-- The `Deal` record. -/
structure Deal where
  id : ℕ
  title : String
  asking_price : Option ℚ := none
  listing_url : Option String := none
  source : Option String := none
  location : Option String := none
  distance_miles : Option ℚ := none
  category : Option String := none
  subcategory : Option String := none
  brand : Option String := none
  model : Option String := none
  item_details : Option String := none
  condition : Option String := none
  condition_confidence : Option String := none
  repair_needed : Option Bool := none
  repair_keywords : Option (List String) := none
  repair_feasibility : Option String := none
  repair_notes : Option String := none
  repair_part_needed : Option String := none
  repair_part_cost : Option ℚ := none
  repair_part_url : Option String := none
  repair_labor_estimate : Option ℚ := none
  repair_total_estimate : Option ℚ := none
  part_numbers : Option (List String) := none
  variants : Option String := none
  is_bundle : Option Bool := none
  bundle_items : Option String := none
  accessory_completeness : Option String := none
  has_product_photos : Option Bool := none
  photo_quality : Option String := none
  seller_username : Option String := none
  seller_rating : Option ℚ := none
  seller_reputation : Option String := none
  market_value : Option ℚ := none
  estimated_profit : Option ℚ := none
  true_profit : Option ℚ := none
  ebay_sold_data : Option Pricing := none
  price_status : Option String := none
  price_note : Option String := none
  price_trend : Option String := none
  price_trend_note : Option String := none
  deal_score : Option ℤ := none
  risk_level : Option String := none
  effort_level : Option String := none
  demand_indicator : Option String := none
  flip_speed_prediction : Option String := none
  local_pickup_available : Option Bool := none
  status : String := "new"
  notified_at : Bool := false
  deriving Repr, DecidableEq

/-- The `Flip` record (models.py columns plus the `ebay_listing_id` /
`listing_status` attributes used by the order-sync and listing services). -/
structure Flip where
  id : ℕ
  deal_id : Option ℕ := none
  item_name : String
  category : Option String := none
  buy_price : ℚ
  buy_date : String := ""
  buy_source : Option String := none
  status : String := "active"
  sell_price : Option ℚ := none
  sell_date : Option String := none
  sell_platform : Option String := none
  fees_paid : ℚ := 0
  shipping_cost : ℚ := 0
  profit : Option ℚ := none
  notes : Option String := none
  ebay_listing_id : Option String := none
  listing_status : Option String := none
  deriving Repr, DecidableEq

/-- `Flip.calculate_profit` from `app/models.py` (note: no quantize here). -/
def Flip.calculate_profit (f : Flip) : Option ℚ :=
  match f.sell_price with
  | none => none
  | some sp => some (sp - f.buy_price - f.fees_paid - f.shipping_cost)

/-! ## Routers (app/routers/flips.py and app/routers/deals.py)

The persistent store is a record of lists; a handler returns the store it
leaves behind together with an HTTP outcome, so a rejected request that
returns the store unchanged is visible as such. -/

/-- The HTTP error raised by `HTTPException(status_code, detail)`. -/
structure HTTPError where
  status_code : ℕ
  detail : String
  deriving Repr, DecidableEq

/-- The persistent store seen by the routers. -/
structure Store where
  deals : List Deal := []
  flips : List Flip := []
  next_flip_id : ℕ := 1
  deriving Repr, DecidableEq

/-- Request body of `POST /flips/(flip_id)/sell` (schema `FlipSell`). -/
structure FlipSell where
  sell_price : ℚ
  sell_date : String
  sell_platform : String
  fees_paid : ℚ := 0
  shipping_cost : ℚ := 0
  deriving Repr, DecidableEq

/-- Request body of `POST /deals/(deal_id)/purchase` (schema `FlipFromDeal`). -/
structure FlipFromDeal where
  buy_price : ℚ
  buy_date : String
  notes : Option String := none
  deriving Repr, DecidableEq

/-- `sell_flip` from `app/routers/flips.py`: look the flip up, reject a
second sale, otherwise fill the sale fields, derive `profit` via
`Flip.calculate_profit`, and persist. -/
def sell_flip (db : Store) (flip_id : ℕ) (sell_data : FlipSell) :
    Store × Except HTTPError Flip :=
  match db.flips.find? (fun f => f.id = flip_id) with
  | none => (db, .error ⟨404, "Flip not found"⟩)
  | some flip =>
      if flip.status = "sold" then
        (db, .error ⟨400, "Flip already sold"⟩)
      else
        let flip1 := { flip with
          sell_price := some sell_data.sell_price
          sell_date := some sell_data.sell_date
          sell_platform := some sell_data.sell_platform
          fees_paid := sell_data.fees_paid
          shipping_cost := sell_data.shipping_cost
          status := "sold" }
        let flip2 := { flip1 with profit := flip1.calculate_profit }
        ({ db with
            flips := db.flips.map (fun g => if g.id = flip_id then flip2 else g) },
          .ok flip2)

/-- The `Flip(...)` constructor call inside `purchase_deal` (the id is the
one the autoincrement column hands out on flush). -/
def mkFlipFromDeal (db : Store) (deal : Deal) (purchase_data : FlipFromDeal) :
    Flip :=
  { id := db.next_flip_id
    deal_id := some deal.id
    item_name := deal.title
    category := deal.category
    buy_price := purchase_data.buy_price
    buy_date := purchase_data.buy_date
    buy_source := deal.source
    notes := purchase_data.notes
    status := "active" }

/-- `purchase_deal` from `app/routers/deals.py`: look the deal up, reject a
re-purchase, otherwise create one active `Flip` from the deal and mark the
deal `purchased`. -/
def purchase_deal (db : Store) (deal_id : ℕ) (purchase_data : FlipFromDeal) :
    Store × Except HTTPError Flip :=
  match db.deals.find? (fun d => d.id = deal_id) with
  | none => (db, .error ⟨404, "Deal not found"⟩)
  | some deal =>
      if deal.status = "purchased" then
        (db, .error ⟨400, "Deal already purchased"⟩)
      else
        let flip := mkFlipFromDeal db deal purchase_data
        ({ db with
            flips := db.flips ++ [flip]
            next_flip_id := db.next_flip_id + 1
            deals := db.deals.map (fun d' =>
              if d'.id = deal_id then { d' with status := "purchased" } else d') },
          .ok flip)

/-! ## Order reconciliation (services/ebay_orders.py)

`sync_sold_items` builds a dict of active flips keyed by `ebay_listing_id`
once, then walks every fulfilled order's line items and marks the looked-up
flip sold.  The dict is a last-entry-wins association; it is embedded as the
lookup function `flipByListing` computed from the state at entry. -/

/-- One order line item as produced by `extract_order_info`: the fields the
matching loop reads are `listing_id` (from `legacyItemId`) and `sell_price`. -/
structure LineItem where
  listing_id : Option String := none
  sell_price : ℚ := 0
  deriving Repr, DecidableEq

/-- One eBay order as produced by `extract_order_info`. -/
structure EbayOrder where
  order_status : String
  order_date : String := ""
  items : List LineItem := []
  deriving Repr, DecidableEq

/-- The `select(Flip).where(status == "active", ebay_listing_id.isnot(None))`
query in `sync_sold_items`. -/
def activeListedFlips (flips : List Flip) : List Flip :=
  flips.filter (fun f => f.status = "active" && f.ebay_listing_id ≠ none)

/-- The `flip_by_listing` dict of `sync_sold_items`, as a lookup returning
the id of the flip stored under a listing id (a dict comprehension keeps the
last flip written under a duplicate key). -/
def flipByListing (flips : List Flip) (lid : String) : Option ℕ :=
  (activeListedFlips flips).foldl
    (fun acc f => if f.ebay_listing_id = some lid then some f.id else acc) none

/-- A Python runtime number as it flows through the matching loop: the flip
fields loaded from `Numeric(10, 2)` columns are `decimal.Decimal`s, while the
loop assigns `sell_price = float(item["sell_price"])` and
`fees_paid = sell_price * fee_percentage`, which are `float`s.  The magnitude
is carried exactly (float rounding is irrelevant here); only the runtime type
drives control flow. -/
inductive PyNum where
  | dec (q : ℚ)
  | flt (q : ℚ)
  deriving Repr, DecidableEq

/-- The numeric magnitude of a runtime number. -/
def PyNum.val : PyNum → ℚ
  | .dec q => q
  | .flt q => q

/-- The exception text of a mixed float/Decimal subtraction. -/
def pyFloatDecTypeError : Err :=
  "TypeError: unsupported operand type(s) for -: float and decimal.Decimal"

/-- Python subtraction on runtime numbers: `decimal.Decimal` refuses `float`
operands (in either order), raising `TypeError`; same-type subtraction
succeeds. -/
def PyNum.sub : PyNum → PyNum → Except Err PyNum
  | .dec a, .dec b => .ok (.dec (a - b))
  | .flt a, .flt b => .ok (.flt (a - b))
  | _, _ => .error pyFloatDecTypeError

/-- The mark-as-sold block of `sync_sold_items`, as the source executes it:
set the sale fields (`sell_price` and `fees_paid` are floats, see `PyNum`),
then run `flip.profit = flip.calculate_profit()`, which evaluates
`sell_price − buy_price − fees_paid − shipping_cost` left to right on the
runtime types — a float `sell_price` minus the Decimal `buy_price` comes
first.  Returns the updated flip or the exception that computation raises. -/
def markSold (fee_rate : ℚ) (order_date : String) (price : ℚ) (f : Flip) :
    Except Err Flip :=
  let f1 := { f with
    status := "sold"
    sell_price := some price
    sell_date := some order_date
    sell_platform := some "ebay"
    fees_paid := price * fee_rate
    listing_status := some "sold" }
  match (PyNum.flt price).sub (.dec f.buy_price) with
  | .error e => .error e
  | .ok d1 =>
      match d1.sub (.flt (price * fee_rate)) with
      | .error e => .error e
      | .ok d2 =>
          match d2.sub (.dec f.shipping_cost) with
          | .error e => .error e
          | .ok p => .ok { f1 with profit := some p.val }

/-- Mutable state threaded through the matching loop of `sync_sold_items`. -/
structure SyncState where
  flips : List Flip
  synced : ℕ := 0
  synced_flip_ids : List ℕ := []
  deriving Repr, DecidableEq

/-- Which flip id (if any) a line item matches:
`if listing_id and listing_id in flip_by_listing`. -/
def itemMatch (lookup : String → Option ℕ) (it : LineItem) : Option ℕ :=
  match it.listing_id with
  | some lid => if lid ≠ "" then lookup lid else none
  | none => none

/-- The inner line-item loop body of `sync_sold_items`.  The dict lookup
yields the stored flip object (the `find?` fallback is unreachable, since
the dict only holds stored flips); an exception from the mark-as-sold block
escapes the loop — there is no handler anywhere in `sync_sold_items`. -/
def syncItem (lookup : String → Option ℕ) (fee_rate : ℚ) (order_date : String)
    (st : SyncState) (it : LineItem) : Except Err SyncState :=
  match itemMatch lookup it with
  | some fid =>
      match st.flips.find? (fun f => f.id = fid) with
      | some flip =>
          match markSold fee_rate order_date it.sell_price flip with
          | .error e => .error e
          | .ok flip' =>
              .ok { flips := st.flips.map (fun f =>
                      if f.id = fid then flip' else f)
                    synced := st.synced + 1
                    synced_flip_ids := st.synced_flip_ids ++ [fid] }
      | none => .ok st
  | none => .ok st

/-- Is an order's fulfillment status one the sync loop accepts? -/
def orderFulfilled (o : EbayOrder) : Bool :=
  o.order_status = "FULFILLED" || o.order_status = "IN_PROGRESS"

/-- The outer order loop body of `sync_sold_items`
(`continue` on a non-fulfilled order). -/
def syncOrder (lookup : String → Option ℕ) (fee_rate : ℚ)
    (st : SyncState) (o : EbayOrder) : Except Err SyncState :=
  if orderFulfilled o then
    o.items.foldlM (syncItem lookup fee_rate o.order_date) st
  else .ok st

/-- The matching core of `sync_sold_items` from `services/ebay_orders.py`:
fee rate and fetched orders are passed in (token refresh, credential lookup
and the HTTP fetch are external collaborators).  A `.error` is an exception
escaping the function; `db.commit()` runs only after the loop (and only when
`synced_count > 0`), so an escaped exception leaves the store uncommitted. -/
def sync_sold_items (fee_rate : ℚ) (flips : List Flip)
    (orders : List EbayOrder) : Except Err SyncState :=
  orders.foldlM (syncOrder (flipByListing flips) fee_rate)
    { flips := flips, synced := 0, synced_flip_ids := [] }

/-! ## Intake pipeline (app/scheduler.py, `process_new_emails`)

Per-listing external results are supplied as a `ListingOracle`.  The
classifier, the market-value lookup and the notification sender catch all
exceptions internally and surface `None`/`False`, so they are plain
`Option`-valued; the price-trend, local-pickup, parts-pricing and
repair-part-cost calls sit inside listing-local `try` blocks in the source,
so they are `Except`-valued and handled where the source handles them.
`db.flush()` (the INSERT) has no handler inside the loop and may raise, so
it is the `Except`-valued step whose failure escapes the loop body. -/

/-- One parsed alert email (`raw_deal` dict from the email service). -/
structure RawListing where
  title : Option String := none
  asking_price : Option ℚ := none
  listing_url : Option String := none
  source : Option String := none
  location : Option String := none
  deriving Repr, DecidableEq

/-- The classification value object returned by the Gemini adapter
(fields copied onto the Deal by `process_new_emails`). -/
structure Classification where
  category : Option String := none
  subcategory : Option String := none
  brand : Option String := none
  model : Option String := none
  item_details : Option String := none
  condition : Option String := none
  condition_confidence : Option String := none
  repair_needed : Option Bool := none
  repair_keywords : Option (List String) := none
  repair_feasibility : Option String := none
  repair_notes : Option String := none
  repair_part_needed : Option String := none
  part_numbers : Option (List String) := none
  variants : Option String := none
  is_bundle : Option Bool := none
  bundle_items : Option String := none
  accessory_completeness : Option String := none
  has_product_photos : Option Bool := none
  photo_quality : Option String := none
  seller_username : Option String := none
  seller_rating : Option ℚ := none
  seller_reputation : Option String := none
  deriving Repr, DecidableEq

/-- Result of `analyze_price_trends`. -/
structure TrendData where
  trend : Option String := none
  note : Option String := none
  deriving Repr, DecidableEq

/-- Result of `check_local_pickup_available`. -/
structure PickupResult where
  found : Bool
  deriving Repr, DecidableEq

/-- Result of `get_part_cost`. -/
structure PartData where
  part_cost : ℚ
  part_url : String
  deriving Repr, DecidableEq

/-- External results for one listing's trip through the pipeline. -/
structure ListingOracle where
  distance : Option ℚ := none
  flush : Except Err Unit := .ok ()
  classification : Option Classification := none
  market_pricing : Option Pricing := none
  trend : Except Err (Option TrendData) := .ok none
  pickup : Except Err (Option PickupResult) := .ok none
  parts_pricing : Except Err (Option Pricing) := .ok none
  part_data : Except Err (Option PartData) := .ok none

/-- Settings and registered device tokens consumed by one intake run. -/
structure PipelineConfig where
  tokens : List String := []
  profit_threshold : ℚ := 0
  ebay_fee_percentage : ℚ := 13
  local_radius_miles : ℚ := 100

/-- Python f-string rendering of an optional string (`None` prints as
`"None"`). -/
def pyStrOf : Option String → String
  | none => "None"
  | some s => s

/-- The search-term construction
`f"(brand or '') (model or subcategory)".strip()` used by both the standard
and the repair paths, as a character list. -/
def searchTermOf (c : Classification) : List Char :=
  trimChars ((if strTruthy c.brand then (pyStrOf c.brand).data else []) ++
    ' ' :: (if strTruthy c.model then pyStrOf c.model
      else pyStrOf c.subcategory).data)

/-- Python truthiness of an `Optional[list]`: `None` and `[]` are falsy. -/
def listTruthy : Option (List String) → Bool
  | none => false
  | some l => l ≠ []

/-- The block of `process_new_emails` that copies every classification field
onto the deal record. -/
def copyClassification (d : Deal) (c : Classification) : Deal :=
  { d with
    category := c.category
    subcategory := c.subcategory
    brand := c.brand
    model := c.model
    item_details := c.item_details
    condition := c.condition
    condition_confidence := c.condition_confidence
    repair_needed := c.repair_needed
    repair_keywords := c.repair_keywords
    repair_feasibility := c.repair_feasibility
    repair_notes := c.repair_notes
    repair_part_needed := c.repair_part_needed
    part_numbers := c.part_numbers
    variants := c.variants
    is_bundle := c.is_bundle
    bundle_items := c.bundle_items
    accessory_completeness := c.accessory_completeness
    has_product_photos := c.has_product_photos
    photo_quality := c.photo_quality
    seller_username := c.seller_username
    seller_rating := c.seller_rating
    seller_reputation := c.seller_reputation }

/-- Write a `DealScore` onto the deal record. -/
def setScore (d : Deal) (sc : DealScore) : Deal :=
  { d with
    deal_score := some sc.deal_score
    risk_level := some sc.risk_level
    effort_level := some sc.effort_level
    demand_indicator := some sc.demand_indicator
    flip_speed_prediction := some sc.flip_speed_prediction }

/-- The `ScoreInput` both scoring call sites assemble from the deal record
(they differ only in where `num_listings` comes from). -/
def scoreInputOf (d : Deal) (num_listings : Option ℤ) : ScoreInput :=
  { estimated_profit := d.estimated_profit
    market_value := d.market_value
    condition := d.condition
    repair_needed := d.repair_needed
    repair_feasibility := d.repair_feasibility
    has_photos := d.has_product_photos
    photo_quality := d.photo_quality
    price_data_quality := d.price_status
    num_listings := num_listings }

/-- The `if pricing:` block of the standard path: market value, profit,
trend (listing-local `try`), score and the profitability notification. -/
def pricingBlock (cfg : PipelineConfig) (d : Deal) (o : ListingOracle)
    (pricing : Pricing) : Deal × List String :=
  let d := { d with
    market_value := some pricing.avg_price
    ebay_sold_data := some pricing
    price_status := some "accurate" }
  let d := { d with estimated_profit :=
    (calculate_estimated_profit d.asking_price d.market_value
      cfg.ebay_fee_percentage 0) }
  let d :=
    match o.trend with
    | .ok (some t) =>
        { d with price_trend := t.trend, price_trend_note := t.note }
    | _ => d
  let d := setScore d
    (calculate_deal_score (scoreInputOf d pricing.num_sales))
  if is_profitable_deal d.asking_price d.market_value
      cfg.profit_threshold cfg.ebay_fee_percentage then
    ({ d with notified_at := true }, cfg.tokens)
  else (d, [])

/-- The eBay local-pickup check of the standard path (listing-local `try`,
`None` stored on error). -/
def pickupBlock (cfg : PipelineConfig) (d : Deal) (o : ListingOracle) : Deal :=
  if strTruthy d.source ∧ lowerStr (pyStrOf d.source) = "ebay".data then
    if (match d.distance_miles with
        | none => true
        | some m => m ≤ cfg.local_radius_miles) then
      match o.pickup with
      | .ok r =>
          let found := match r with | some pr => pr.found | none => false
          { d with local_pickup_available := some found }
      | .error _ => { d with local_pickup_available := none }
    else d
  else d

/-- The standard (known non-repair condition) pricing path of
`process_new_emails`: price lookup, profit, trend, score, notification,
local-pickup check.  Returns the updated deal and the tokens notified. -/
def standardPath (cfg : PipelineConfig) (c : Classification) (d : Deal)
    (o : ListingOracle) : Deal × List String :=
  let search_term := searchTermOf c
  if search_term ≠ [] then
    let step :=
      match o.market_pricing with
      | some pricing => pricingBlock cfg d o pricing
      | none => (d, [])
    (pickupBlock cfg step.1 o, step.2)
  else (d, [])

/-- The parts/broken market-value block of the repair path (listing-local
`try`). -/
def partsBlock (d : Deal) (o : ListingOracle) : Deal :=
  match o.parts_pricing with
  | .ok (some pp) =>
      { d with
        market_value := some pp.avg_price
        ebay_sold_data := some pp
        price_status := some "similar_prices"
        price_note := some "Based on similar broken/parts listings" }
  | _ => d

/-- The repair-part-cost / repair-estimate / true-profit block of the repair
path (listing-local `try`). -/
def partBlock (d : Deal) (o : ListingOracle) : Deal :=
  match o.part_data with
  | .ok (some pd) =>
      let d := { d with
        repair_part_cost := some pd.part_cost
        repair_part_url := some pd.part_url }
      let re := calculate_repair_estimate d.repair_part_cost
        d.repair_feasibility d.repair_part_needed
      let d := { d with
        repair_labor_estimate := some re.labor_estimate
        repair_total_estimate := some re.total_estimate }
      if qTruthy d.estimated_profit then
        { d with true_profit :=
            calculate_true_profit d.estimated_profit d.repair_total_estimate }
      else d
  | _ => d

/-- The repair-path rescore (`if deal.market_value:` block). -/
def rescoreBlock (cfg : PipelineConfig) (d : Deal) : Deal :=
  let d := { d with estimated_profit :=
    (calculate_estimated_profit d.asking_price d.market_value
      cfg.ebay_fee_percentage 0) }
  setScore d (calculate_deal_score
    (scoreInputOf d (d.ebay_sold_data.bind Pricing.num_sales)))

/-- The repair-cost path of `process_new_emails` (parts market value, part
cost, repair estimate, true profit, rescoring). -/
def repairPath (cfg : PipelineConfig) (c : Classification) (d : Deal)
    (o : ListingOracle) : Deal :=
  if d.condition = some "needs_repair" ∨ d.repair_needed = some true then
    let search_term := searchTermOf c
    let d := if search_term ≠ [] then partsBlock d o else d
    let d := if strTruthy d.repair_part_needed then partBlock d o else d
    if qTruthy d.market_value then rescoreBlock cfg d else d
  else d

/-- The `Deal(...)` creation plus the distance computation of
`process_new_emails` (`distance_miles` is set only when the location is a
truthy string; the id is the one flush hands out). -/
def mkDealFromRaw (newId : ℕ) (raw : RawListing) (distance : Option ℚ) :
    Deal :=
  { id := newId
    title := raw.title.getD "Unknown"
    asking_price := raw.asking_price
    listing_url := raw.listing_url
    source := raw.source
    location := raw.location
    distance_miles := if strTruthy raw.location then distance else none }

/-- One loop iteration of `process_new_emails`: dedup by `listing_url`
against the store, create the deal, distance, flush, classify, auto-dismiss,
route, price, repair path.  `.ok none` is the dedup skip (`continue`);
a `.error` is an exception escaping the loop body. -/
def processListing (cfg : PipelineConfig) (st : List Deal) (raw : RawListing)
    (o : ListingOracle) : Except Err (Option (Deal × List String)) :=
  if st.any (fun d => d.listing_url = raw.listing_url) then .ok none
  else
    let deal0 := mkDealFromRaw st.length raw o.distance
    match o.flush with
    | .error e => .error e
    | .ok _ =>
        match o.classification with
        | none => .ok (some (deal0, []))
        | some c =>
            let d := copyClassification deal0 c
            if c.has_product_photos = some false then
              .ok (some ({ d with status := "dismissed" }, []))
            else
              let routed :=
                if c.condition = some "needs_repair" ∨ c.repair_needed = some true then
                  ({ d with status := "needs_condition" }, ([] : List String))
                else if c.condition = some "unknown" then
                  ({ d with status := "needs_condition" }, [])
                else standardPath cfg c d o
              .ok (some (repairPath cfg c routed.1 o, routed.2))

/-- The batch loop of `process_new_emails` over the fetched emails.  There
is no handler inside the loop, so a `.error` from one listing aborts the
remaining ones. -/
def processBatch (cfg : PipelineConfig) :
    List Deal → List (RawListing × ListingOracle) → Except Err (List Deal)
  | st, [] => .ok st
  | st, (raw, o) :: rest =>
      match processListing cfg st raw o with
      | .error e => .error e
      | .ok none => processBatch cfg st rest
      | .ok (some (d, _)) => processBatch cfg (st ++ [d]) rest

/-- The body of the job-level `try` in `process_new_emails`: process the
batch, then `db.commit()`. -/
def runIntake (cfg : PipelineConfig) (st : List Deal)
    (batch : List (RawListing × ListingOracle)) (commit : Except Err Unit) :
    Except Err (List Deal) :=
  match processBatch cfg st batch with
  | .error e => .error e
  | .ok st' =>
      match commit with
      | .error e => .error e
      | .ok _ => .ok st'

/-- `process_new_emails` from `app/scheduler.py`: the whole run sits in one
`try/except Exception` that logs and swallows, so the job itself always
returns; on an escaped exception the session is closed without commit, which
rolls the store back to its entry state (the `Bool` is `false` exactly when
the error log line was printed). -/
def process_new_emails (cfg : PipelineConfig) (st : List Deal)
    (batch : List (RawListing × ListingOracle)) (commit : Except Err Unit) :
    Except Err (List Deal × Bool) :=
  .ok (match runIntake cfg st batch commit with
    | .ok st' => (st', true)
    | .error _ => (st, false))

/-! ## Claim C4 — estimated-profit formula -/

/-- C4: `calculate_estimated_profit` returns `none` whenever asking price or
market value is missing, otherwise
`market_value − asking_price − market_value × fee/100 − shipping` rounded to
2 decimal places; in particular with asking 100, market 200, fee 13 the
result is exactly 74.00. -/
theorem estimated_profit_formula :
    (∀ (mv : Option ℚ) (fee sh : ℚ),
      calculate_estimated_profit none mv fee sh = none) ∧
    (∀ (ap : Option ℚ) (fee sh : ℚ),
      calculate_estimated_profit ap none fee sh = none) ∧
    (∀ ap mv fee sh : ℚ,
      calculate_estimated_profit (some ap) (some mv) fee sh =
        some (quantize2 (mv - ap - mv * (fee / 100) - sh))) ∧
    calculate_estimated_profit (some 100) (some 200) 13 0 = some 74 := by
  refine ⟨fun mv fee sh => ?_, fun ap fee sh => ?_, fun ap mv fee sh => rfl, ?_⟩
  · cases mv <;> rfl
  · cases ap <;> rfl
  · show some (quantize2 ((200 : ℚ) - 100 - 200 * (13 / 100) - 0)) = some 74
    rw [show (200 : ℚ) - 100 - 200 * (13 / 100) - 0 = 74 by norm_num,
      quantize2_isCents 74 ⟨7400, by norm_num⟩]

/-! ## Claim C6 — actual profit vs `Flip.calculate_profit` -/

/-- C6: `calculate_actual_profit` is
`sell − buy − fees − shipping` rounded to 2 decimals, and on any flip whose
four monetary fields are whole numbers of cents (every flip read back from
the `Numeric(10, 2)` columns) it coincides exactly with
`Flip.calculate_profit`. -/
theorem actual_profit_matches_flip (f : Flip) (sp : ℚ)
    (hsp : f.sell_price = some sp)
    (h1 : IsCents f.buy_price) (h2 : IsCents sp)
    (h3 : IsCents f.fees_paid) (h4 : IsCents f.shipping_cost) :
    calculate_actual_profit f.buy_price sp f.fees_paid f.shipping_cost =
      sp - f.buy_price - f.fees_paid - f.shipping_cost ∧
    Flip.calculate_profit f =
      some (calculate_actual_profit f.buy_price sp f.fees_paid f.shipping_cost) := by
  have hq : calculate_actual_profit f.buy_price sp f.fees_paid f.shipping_cost =
      sp - f.buy_price - f.fees_paid - f.shipping_cost := by
    unfold calculate_actual_profit
    exact quantize2_isCents _ (isCents_sub (isCents_sub (isCents_sub h2 h1) h3) h4)
  refine ⟨hq, ?_⟩
  rw [Flip.calculate_profit, hsp, hq]

/-- Witness for C6 at a concrete flip (buy 10.00, sold 25.50 with 3.31 fees
and 0 shipping). -/
theorem actual_profit_matches_flip_witness :
    Flip.calculate_profit
        { id := 1, item_name := "w", buy_price := 10, status := "sold",
          sell_price := some (51/2), fees_paid := 331/100 } =
      some (calculate_actual_profit 10 (51/2) (331/100) 0) := by
  have h := actual_profit_matches_flip
    { id := 1, item_name := "w", buy_price := 10, status := "sold",
      sell_price := some (51/2), fees_paid := 331/100 }
    (51/2) rfl ⟨1000, by norm_num⟩ ⟨2550, by norm_num⟩
    ⟨331, by norm_num⟩ ⟨0, by norm_num⟩
  exact h.2

/-! ## Claim C7 — deal-score bounds and determinism -/

/-- C7: for every combination of inputs the returned `deal_score` lies in
[0, 100], and the scorer is a deterministic function: equal inputs give
equal scores and equal risk/effort/demand/flip-speed labels. -/
theorem deal_score_bounds_deterministic (i : ScoreInput) :
    (0 ≤ (calculate_deal_score i).deal_score ∧
      (calculate_deal_score i).deal_score ≤ 100) ∧
    ∀ j : ScoreInput, i = j → calculate_deal_score i = calculate_deal_score j := by
  refine ⟨⟨le_min (by norm_num) (le_max_left 0 _), min_le_left _ _⟩, ?_⟩
  intro j h
  rw [h]

/-- Witness for C7 at the all-`none` input. -/
theorem deal_score_bounds_deterministic_witness :
    (0 ≤ (calculate_deal_score {}).deal_score ∧
      (calculate_deal_score {}).deal_score ≤ 100) ∧
    calculate_deal_score {} = calculate_deal_score {} :=
  ⟨(deal_score_bounds_deterministic {}).1,
    (deal_score_bounds_deterministic {}).2 {} rfl⟩

/-! ## Claim C8 — repair estimate -/

/-- C8: labor comes from the feasibility table (easy 15, moderate 35,
difficult 75, professional 150); with feasibility absent it is inferred from
keywords of the repair type (screen/battery/back glass → 35,
port/charging/button → 75, board/water/motherboard → 150,
cosmetic/scratch/dent → 15, tried in that order), defaulting to 50; the
total estimate is part cost (0 if missing) plus labor, each quantized to
2 decimals; and `calculate_repair_estimate (some 50) (some "moderate")`
is exactly (50.00, 35.00, 85.00). -/
theorem repair_estimate_spec :
    (∀ rt, estimate_labor_cost (some "easy") rt = 15 ∧
      estimate_labor_cost (some "moderate") rt = 35 ∧
      estimate_labor_cost (some "difficult") rt = 75 ∧
      estimate_labor_cost (some "professional") rt = 150) ∧
    (∀ t, (kwModerate (lowerStr t) = true →
        estimate_labor_cost none (some t) = 35) ∧
      (kwModerate (lowerStr t) = false → kwDifficult (lowerStr t) = true →
        estimate_labor_cost none (some t) = 75) ∧
      (kwModerate (lowerStr t) = false → kwDifficult (lowerStr t) = false →
        kwProfessional (lowerStr t) = true →
        estimate_labor_cost none (some t) = 150) ∧
      (kwModerate (lowerStr t) = false → kwDifficult (lowerStr t) = false →
        kwProfessional (lowerStr t) = false → kwEasy (lowerStr t) = true →
        estimate_labor_cost none (some t) = 15) ∧
      (kwModerate (lowerStr t) = false → kwDifficult (lowerStr t) = false →
        kwProfessional (lowerStr t) = false → kwEasy (lowerStr t) = false →
        estimate_labor_cost none (some t) = 50)) ∧
    estimate_labor_cost none none = 50 ∧
    (∀ (pc : Option ℚ) (fe rt : Option String),
      calculate_repair_estimate pc fe rt =
        { part_cost := quantize2 (pc.getD 0)
          labor_estimate := quantize2 (estimate_labor_cost fe rt)
          total_estimate := quantize2 (pc.getD 0 + estimate_labor_cost fe rt) }) ∧
    calculate_repair_estimate (some 50) (some "moderate") none =
      { part_cost := 50, labor_estimate := 35, total_estimate := 85 } := by
  have hlab : estimate_labor_cost (some "moderate") none = 35 := rfl
  refine ⟨fun rt => ⟨rfl, rfl, rfl, rfl⟩, fun t => ?_, rfl, fun pc fe rt => rfl, ?_⟩
  · refine ⟨fun h1 => ?_, fun h1 h2 => ?_, fun h1 h2 h3 => ?_,
      fun h1 h2 h3 h4 => ?_, fun h1 h2 h3 h4 => ?_⟩
    · simp [estimate_labor_cost, h1]
    · simp [estimate_labor_cost, h1, h2]
    · simp [estimate_labor_cost, h1, h2, h3]
    · simp [estimate_labor_cost, h1, h2, h3, h4]
    · simp [estimate_labor_cost, h1, h2, h3, h4, DEFAULT_LABOR]
  · show calculate_repair_estimate (some 50) (some "moderate") none =
      { part_cost := 50, labor_estimate := 35, total_estimate := 85 }
    simp only [calculate_repair_estimate, hlab, Option.getD_some]
    rw [show (50 : ℚ) + 35 = 85 by norm_num,
      quantize2_isCents 50 ⟨5000, by norm_num⟩,
      quantize2_isCents 35 ⟨3500, by norm_num⟩,
      quantize2_isCents 85 ⟨8500, by norm_num⟩]

/-- Witness for C8 at the keyword branches (repair type
"Screen replacement", hence moderate labor). -/
theorem repair_estimate_spec_witness :
    estimate_labor_cost none (some "Screen replacement") = 35 := by
  have h := (repair_estimate_spec.2.1 "Screen replacement").1
  exact h (by decide)

/-! ## Claim C5 — integrity rejections leave the store untouched -/

/-- C5: selling an already-sold flip and purchasing an already-purchased
deal are both rejected with a 400 error, and the store the handler returns
is exactly the store it received — no field mutated, no second flip
created. -/
theorem integrity_rejections (db : Store) :
    (∀ (fid : ℕ) (s : FlipSell) (f : Flip),
      db.flips.find? (fun g => g.id = fid) = some f → f.status = "sold" →
      sell_flip db fid s = (db, .error ⟨400, "Flip already sold"⟩)) ∧
    (∀ (did : ℕ) (p : FlipFromDeal) (d : Deal),
      db.deals.find? (fun e => e.id = did) = some d → d.status = "purchased" →
      purchase_deal db did p = (db, .error ⟨400, "Deal already purchased"⟩)) := by
  constructor
  · intro fid s f hf hs
    unfold sell_flip
    rw [hf]
    simp [hs]
  · intro did p d hd hs
    unfold purchase_deal
    rw [hd]
    simp [hs]

/-- Witness for C5: a store holding one sold flip and one purchased deal. -/
theorem integrity_rejections_witness :
    sell_flip
        { flips := [{ id := 1, item_name := "w", buy_price := 5, status := "sold" }] }
        1 { sell_price := 9, sell_date := "d", sell_platform := "local" } =
      ({ flips := [{ id := 1, item_name := "w", buy_price := 5, status := "sold" }] },
        .error ⟨400, "Flip already sold"⟩) ∧
    purchase_deal
        { deals := [{ id := 2, title := "t", status := "purchased" }] }
        2 { buy_price := 5, buy_date := "d" } =
      ({ deals := [{ id := 2, title := "t", status := "purchased" }] },
        .error ⟨400, "Deal already purchased"⟩) :=
  ⟨(integrity_rejections
      { flips := [{ id := 1, item_name := "w", buy_price := 5, status := "sold" }] }).1
      1 { sell_price := 9, sell_date := "d", sell_platform := "local" }
      { id := 1, item_name := "w", buy_price := 5, status := "sold" } rfl rfl,
    (integrity_rejections
      { deals := [{ id := 2, title := "t", status := "purchased" }] }).2
      2 { buy_price := 5, buy_date := "d" }
      { id := 2, title := "t", status := "purchased" } rfl rfl⟩

/-! ## Claim C10 — purchase succeeds for every non-purchased status -/

/-- C10: `purchase_deal` rejects only deals whose status is exactly
`"purchased"`; for a deal in any other status (including `"dismissed"` and
`"needs_condition"`) it returns one new flip appended to the store, with
status `"active"` and `deal_id` pointing at the deal, and every stored copy
of that deal is marked `"purchased"`. -/
theorem purchase_non_purchased (db : Store) (did : ℕ) (p : FlipFromDeal)
    (d : Deal) (hd : db.deals.find? (fun e => e.id = did) = some d)
    (hs : d.status ≠ "purchased") :
    ∃ flip : Flip,
      purchase_deal db did p =
        ({ db with
            flips := db.flips ++ [flip]
            next_flip_id := db.next_flip_id + 1
            deals := db.deals.map (fun e =>
              if e.id = did then { e with status := "purchased" } else e) },
          .ok flip) ∧
      flip.status = "active" ∧ flip.deal_id = some d.id ∧
      ∀ e ∈ (purchase_deal db did p).1.deals, e.id = did → e.status = "purchased" := by
  refine ⟨mkFlipFromDeal db d p, ?_, rfl, rfl, ?_⟩
  · unfold purchase_deal
    rw [hd]
    simp [hs]
  · intro e he hid
    have hpd : (purchase_deal db did p).1.deals = db.deals.map (fun e =>
        if e.id = did then { e with status := "purchased" } else e) := by
      unfold purchase_deal
      rw [hd]
      simp [hs]
    rw [hpd] at he
    obtain ⟨e', _, rfl⟩ := List.mem_map.mp he
    by_cases h : e'.id = did
    · simp [h]
    · rw [if_neg h] at hid
      exact absurd hid h

/-- Witness for C10: purchasing a dismissed deal succeeds and creates the
active flip. -/
theorem purchase_non_purchased_witness :
    ∃ flip : Flip,
      purchase_deal { deals := [{ id := 2, title := "t", status := "dismissed" }] }
          2 { buy_price := 5, buy_date := "d" } =
        ({ deals := [{ id := 2, title := "t", status := "purchased" }],
            flips := [flip], next_flip_id := 2 },
          .ok flip) ∧
      flip.status = "active" ∧ flip.deal_id = some 2 := by
  obtain ⟨flip, h1, h2, h3, _⟩ := purchase_non_purchased
    { deals := [{ id := 2, title := "t", status := "dismissed" }] }
    2 { buy_price := 5, buy_date := "d" }
    { id := 2, title := "t", status := "dismissed" } rfl (by decide)
  exact ⟨flip, h1, h2, h3⟩

/-! ## Claim C3 — no-photo auto-dismiss -/

/-- C3: whenever the classifier reports `has_product_photos = false`, the
listing's deal is stored with status `"dismissed"` and processing stops:
no market value, no estimated profit, no deal score, no repair-cost fields,
no notification — whatever the pricing, trend, pickup or parts oracles would
have answered. -/
theorem no_photo_auto_dismiss (cfg : PipelineConfig) (st : List Deal)
    (raw : RawListing) (o : ListingOracle) (c : Classification)
    (hdedup : st.any (fun d => d.listing_url = raw.listing_url) = false)
    (hflush : o.flush = .ok ()) (hclass : o.classification = some c)
    (hphoto : c.has_product_photos = some false) :
    ∃ d : Deal,
      processListing cfg st raw o = .ok (some (d, [])) ∧
      d.status = "dismissed" ∧ d.market_value = none ∧
      d.estimated_profit = none ∧ d.deal_score = none ∧
      d.notified_at = false ∧ d.repair_part_cost = none ∧
      d.repair_labor_estimate = none ∧ d.repair_total_estimate = none ∧
      d.true_profit = none ∧ d.price_status = none := by
  unfold processListing
  rw [hdedup, hflush, hclass]
  by_cases hl : strTruthy raw.location
  all_goals
    simp only [hl, Bool.false_eq_true, if_false, if_true, hphoto]
    exact ⟨_, rfl, rfl, rfl, rfl, rfl, rfl, rfl, rfl, rfl, rfl, rfl⟩

/-- Witness for C3 at a concrete listing whose classification reports no
product photos. -/
theorem no_photo_auto_dismiss_witness :
    ∃ d : Deal,
      processListing {} [] { listing_url := some "u" }
          { classification := some { has_product_photos := some false } } =
        .ok (some (d, [])) ∧
      d.status = "dismissed" ∧ d.market_value = none ∧
      d.estimated_profit = none ∧ d.deal_score = none ∧
      d.notified_at = false ∧ d.repair_part_cost = none ∧
      d.repair_labor_estimate = none ∧ d.repair_total_estimate = none ∧
      d.true_profit = none ∧ d.price_status = none :=
  no_photo_auto_dismiss {} [] { listing_url := some "u" }
    { classification := some { has_product_photos := some false } }
    { has_product_photos := some false } rfl rfl rfl rfl

/-! ## Claim C2 — exception granularity of the intake batch -/

/-- C2 (counterexample): a batch of two fresh listings where the first
listing's `db.flush()` raises.  The job swallows the exception (result is
`.ok`), but the run ends with the store rolled back to its entry state and
the error flag set: the second listing was never processed and no deal for
it exists — refuting exception handling at per-listing granularity. -/
theorem intake_abort_counterexample :
    process_new_emails {} []
        [({ listing_url := some "a" }, { flush := .error "db error" }),
          ({ listing_url := some "b" }, { flush := .ok () })]
        (.ok ()) =
      .ok ([], false) := rfl

/-- C2 (amended): the job-level run itself never raises — it always returns
a result — but an exception inside one listing's processing is caught only
at that job level: if some listing's processing raises after a prefix of the
batch succeeded, the whole batch run fails with that exception no matter
what listings follow, so the remaining listings are not processed. -/
theorem intake_error_granularity :
    (∀ (cfg : PipelineConfig) (st : List Deal)
        (batch : List (RawListing × ListingOracle)) (commit : Except Err Unit),
      ∃ r, process_new_emails cfg st batch commit = .ok r) ∧
    (∀ (cfg : PipelineConfig) (st : List Deal)
        (pre : List (RawListing × ListingOracle)) (raw : RawListing)
        (o : ListingOracle) (rest : List (RawListing × ListingOracle))
        (st' : List Deal) (e : Err),
      processBatch cfg st pre = .ok st' →
      processListing cfg st' raw o = .error e →
      processBatch cfg st (pre ++ (raw, o) :: rest) = .error e) := by
  constructor
  · intro cfg st batch commit
    exact ⟨_, rfl⟩
  · intro cfg st pre
    induction pre generalizing st with
    | nil =>
        intro raw o rest st' e hpre hfail
        obtain rfl : st = st' := by
          simpa [processBatch] using hpre
        simp [processBatch, hfail]
    | cons p pre ih =>
        intro raw o rest st' e hpre hfail
        obtain ⟨raw₁, o₁⟩ := p
        rw [List.cons_append]
        unfold processBatch at hpre ⊢
        rcases hstep : processListing cfg st raw₁ o₁ with e₁ | r
        · rw [hstep] at hpre
          exact absurd hpre (by simp)
        · rw [hstep] at hpre
          rcases r with _ | ⟨d, notifs⟩
          · exact ih st raw o rest st' e hpre hfail
          · exact ih (st ++ [d]) raw o rest st' e hpre hfail

/-- Witness for C2 at a concrete aborting batch: the never-raises part at
the counterexample batch, and the abort part with an empty prefix. -/
theorem intake_error_granularity_witness :
    (∃ r, process_new_emails {} []
        [({ listing_url := some "a" }, { flush := .error "db error" })]
        (.ok ()) = .ok r) ∧
    processBatch {} []
        ([] ++ ({ listing_url := some "a" }, { flush := .error "db error" }) ::
          [({ listing_url := some "b" }, { flush := .ok () })]) =
      .error "db error" :=
  ⟨intake_error_granularity.1 {} []
      [({ listing_url := some "a" }, { flush := .error "db error" })] (.ok ()),
    intake_error_granularity.2 {} [] [] { listing_url := some "a" }
      { flush := .error "db error" } [({ listing_url := some "b" }, { flush := .ok () })]
      [] "db error" rfl rfl⟩

/-! ## Claim C9 — dedup idempotence and delivery order -/

/-- Number of stored deals carrying a given dedup key. -/
def countUrl (st : List Deal) (u : Option String) : ℕ :=
  (st.filter (fun d => d.listing_url = u)).length

theorem countUrl_append (st₁ st₂ : List Deal) (u : Option String) :
    countUrl (st₁ ++ st₂) u = countUrl st₁ u + countUrl st₂ u := by
  simp [countUrl, List.filter_append]

theorem one_le_countUrl_iff (st : List Deal) (u : Option String) :
    1 ≤ countUrl st u ↔ ∃ d ∈ st, d.listing_url = u := by
  rw [countUrl]
  constructor
  · intro h
    have hne : st.filter (fun d => d.listing_url = u) ≠ [] := by
      intro hnil
      rw [hnil] at h
      simp at h
    obtain ⟨d, hd⟩ := List.exists_mem_of_ne_nil _ hne
    obtain ⟨hmem, hu⟩ := List.mem_filter.mp hd
    exact ⟨d, hmem, by simpa using hu⟩
  · rintro ⟨d, hd, hu⟩
    have hmem : d ∈ st.filter (fun x => x.listing_url = u) :=
      List.mem_filter.mpr ⟨hd, by simpa using hu⟩
    have h := List.length_pos.mpr (List.ne_nil_of_mem hmem)
    omega

theorem any_url_eq_true_iff (st : List Deal) (u : Option String) :
    st.any (fun d => d.listing_url = u) = true ↔ 1 ≤ countUrl st u := by
  rw [List.any_eq_true, one_le_countUrl_iff]
  simp

theorem any_url_eq_false_iff (st : List Deal) (u : Option String) :
    st.any (fun d => d.listing_url = u) = false ↔ countUrl st u = 0 := by
  rw [Bool.eq_false_iff, Ne, any_url_eq_true_iff]
  omega

theorem pricingBlock_listing_url (cfg : PipelineConfig) (d : Deal)
    (o : ListingOracle) (pricing : Pricing) :
    (pricingBlock cfg d o pricing).1.listing_url = d.listing_url := by
  unfold pricingBlock
  rcases o.trend with e | tr
  · dsimp only []
    split_ifs <;> rfl
  · cases tr <;> dsimp only [] <;> split_ifs <;> rfl

theorem pickupBlock_listing_url (cfg : PipelineConfig) (d : Deal)
    (o : ListingOracle) :
    (pickupBlock cfg d o).listing_url = d.listing_url := by
  unfold pickupBlock
  rcases o.pickup with e | r
  · dsimp only []
    split_ifs <;> rfl
  · cases r <;> dsimp only [] <;> split_ifs <;> rfl

theorem standardPath_listing_url (cfg : PipelineConfig) (c : Classification)
    (d : Deal) (o : ListingOracle) :
    (standardPath cfg c d o).1.listing_url = d.listing_url := by
  unfold standardPath
  dsimp only []
  split_ifs
  · rcases o.market_pricing with _ | pricing
    · exact pickupBlock_listing_url cfg d o
    · rw [pickupBlock_listing_url]
      exact pricingBlock_listing_url cfg d o pricing
  · rfl

theorem partsBlock_listing_url (d : Deal) (o : ListingOracle) :
    (partsBlock d o).listing_url = d.listing_url := by
  unfold partsBlock
  rcases o.parts_pricing with e | pp
  · rfl
  · cases pp <;> rfl

theorem partBlock_listing_url (d : Deal) (o : ListingOracle) :
    (partBlock d o).listing_url = d.listing_url := by
  unfold partBlock
  rcases o.part_data with e | pd
  · rfl
  · cases pd with
    | none => rfl
    | some pd =>
        dsimp only []
        split_ifs <;> rfl

theorem rescoreBlock_listing_url (cfg : PipelineConfig) (d : Deal) :
    (rescoreBlock cfg d).listing_url = d.listing_url := rfl

theorem repairPath_listing_url (cfg : PipelineConfig) (c : Classification)
    (d : Deal) (o : ListingOracle) :
    (repairPath cfg c d o).listing_url = d.listing_url := by
  have step0 : ∀ x : Deal,
      (if searchTermOf c ≠ [] then partsBlock x o else x).listing_url =
        x.listing_url := by
    intro x
    split_ifs
    exacts [partsBlock_listing_url x o, rfl]
  have step1 : ∀ x : Deal,
      (if strTruthy x.repair_part_needed then partBlock x o else x).listing_url =
        x.listing_url := by
    intro x
    split_ifs
    exacts [partBlock_listing_url x o, rfl]
  have step2 : ∀ x : Deal,
      (if qTruthy x.market_value then rescoreBlock cfg x else x).listing_url =
        x.listing_url := by
    intro x
    split_ifs
    exacts [rescoreBlock_listing_url cfg x, rfl]
  unfold repairPath
  by_cases h0 : d.condition = some "needs_repair" ∨ d.repair_needed = some true
  · rw [if_pos h0]
    dsimp only []
    rw [step2, step1, step0]
  · rw [if_neg h0]

theorem mkDealFromRaw_listing_url (n : ℕ) (raw : RawListing)
    (dist : Option ℚ) : (mkDealFromRaw n raw dist).listing_url =
      raw.listing_url := rfl

theorem copyClassification_listing_url (d : Deal) (c : Classification) :
    (copyClassification d c).listing_url = d.listing_url := rfl

theorem processListing_ok_none (cfg : PipelineConfig) (st : List Deal)
    (raw : RawListing) (o : ListingOracle)
    (h : processListing cfg st raw o = .ok none) :
    st.any (fun d => d.listing_url = raw.listing_url) = true := by
  by_contra hany
  have hany' : st.any (fun d => d.listing_url = raw.listing_url) = false :=
    Bool.eq_false_iff.mpr hany
  unfold processListing at h
  rw [hany'] at h
  simp only [Bool.false_eq_true, if_false] at h
  rcases hfl : o.flush with e | u
  · rw [hfl] at h
    exact absurd h (by simp)
  · rw [hfl] at h
    dsimp only [] at h
    rcases hcl : o.classification with _ | c
    · rw [hcl] at h
      exact absurd h (by simp)
    · rw [hcl] at h
      dsimp only [] at h
      by_cases hph : c.has_product_photos = some false
      · rw [if_pos hph] at h
        exact absurd h (by simp)
      · rw [if_neg hph] at h
        exact absurd h (by simp)

theorem processListing_ok_some (cfg : PipelineConfig) (st : List Deal)
    (raw : RawListing) (o : ListingOracle) (d : Deal) (notifs : List String)
    (h : processListing cfg st raw o = .ok (some (d, notifs))) :
    st.any (fun x => x.listing_url = raw.listing_url) = false ∧
    d.listing_url = raw.listing_url := by
  by_cases hany : st.any (fun x => x.listing_url = raw.listing_url) = true
  · unfold processListing at h
    rw [hany] at h
    exact absurd h (by simp)
  · have hany' := Bool.eq_false_iff.mpr hany
    refine ⟨hany', ?_⟩
    unfold processListing at h
    rw [hany'] at h
    simp only [Bool.false_eq_true, if_false] at h
    rcases hfl : o.flush with e | u
    · rw [hfl] at h
      exact absurd h (by simp)
    rw [hfl] at h
    dsimp only [] at h
    rcases hcl : o.classification with _ | c
    · rw [hcl] at h
      simp only [Except.ok.injEq, Option.some.injEq, Prod.mk.injEq] at h
      obtain ⟨rfl, -⟩ := h
      exact mkDealFromRaw_listing_url st.length raw o.distance
    · rw [hcl] at h
      dsimp only [] at h
      by_cases hph : c.has_product_photos = some false
      · rw [if_pos hph] at h
        simp only [Except.ok.injEq, Option.some.injEq, Prod.mk.injEq] at h
        obtain ⟨rfl, -⟩ := h
        exact mkDealFromRaw_listing_url st.length raw o.distance
      · rw [if_neg hph] at h
        simp only [Except.ok.injEq, Option.some.injEq, Prod.mk.injEq] at h
        obtain ⟨rfl, -⟩ := h
        rw [repairPath_listing_url]
        by_cases h1 : c.condition = some "needs_repair" ∨
            c.repair_needed = some true
        · rw [if_pos h1]
          exact mkDealFromRaw_listing_url st.length raw o.distance
        · rw [if_neg h1]
          by_cases h2 : c.condition = some "unknown"
          · rw [if_pos h2]
            exact mkDealFromRaw_listing_url st.length raw o.distance
          · rw [if_neg h2, standardPath_listing_url]
            exact mkDealFromRaw_listing_url st.length raw o.distance

theorem processBatch_append_only (cfg : PipelineConfig) :
    ∀ (batch : List (RawListing × ListingOracle)) (st st' : List Deal),
      processBatch cfg st batch = .ok st' →
      ∃ suffix, st' = st ++ suffix ∧
        List.Sublist (suffix.map Deal.listing_url)
          (batch.map (fun p => p.1.listing_url)) := by
  intro batch
  induction batch with
  | nil =>
      intro st st' h
      simp only [processBatch, Except.ok.injEq] at h
      exact ⟨[], by simp [h], by simp⟩
  | cons p rest ih =>
      intro st st' h
      obtain ⟨raw, o⟩ := p
      unfold processBatch at h
      rcases hstep : processListing cfg st raw o with e | r
      · rw [hstep] at h
        exact absurd h (by simp)
      rw [hstep] at h
      rcases r with _ | ⟨d, notifs⟩
      · obtain ⟨suffix, rfl, hsub⟩ := ih st st' h
        exact ⟨suffix, rfl, List.Sublist.cons _ hsub⟩
      · obtain ⟨suffix, hst, hsub⟩ := ih (st ++ [d]) st' h
        refine ⟨d :: suffix, by simpa using hst, ?_⟩
        have hurl := (processListing_ok_some cfg st raw o d notifs hstep).2
        simpa [hurl] using List.Sublist.cons₂ raw.listing_url hsub

theorem processBatch_countUrl_mono (cfg : PipelineConfig)
    (batch : List (RawListing × ListingOracle)) (st st' : List Deal)
    (u : Option String) (h : processBatch cfg st batch = .ok st') :
    countUrl st u ≤ countUrl st' u := by
  obtain ⟨suffix, rfl, -⟩ := processBatch_append_only cfg batch st st' h
  rw [countUrl_append]
  omega

theorem processBatch_countUrl_le_one (cfg : PipelineConfig) :
    ∀ (batch : List (RawListing × ListingOracle)) (st st' : List Deal)
      (u : Option String), processBatch cfg st batch = .ok st' →
      countUrl st u ≤ 1 → countUrl st' u ≤ 1 := by
  intro batch
  induction batch with
  | nil =>
      intro st st' u h hle
      simp only [processBatch, Except.ok.injEq] at h
      rwa [h] at hle
  | cons p rest ih =>
      intro st st' u h hle
      obtain ⟨raw, o⟩ := p
      unfold processBatch at h
      rcases hstep : processListing cfg st raw o with e | r
      · rw [hstep] at h
        exact absurd h (by simp)
      rw [hstep] at h
      rcases r with _ | ⟨d, notifs⟩
      · exact ih st st' u h hle
      · obtain ⟨hany, hurl⟩ := processListing_ok_some cfg st raw o d notifs hstep
        have hzero := (any_url_eq_false_iff st raw.listing_url).mp hany
        refine ih (st ++ [d]) st' u h ?_
        rw [countUrl_append]
        by_cases hu : d.listing_url = u
        · have hu2 : u = raw.listing_url := by rw [← hu, hurl]
          subst hu2
          have hone : countUrl [d] raw.listing_url = 1 := by
            simp [countUrl, List.filter_singleton, hu]
          omega
        · have hz2 : countUrl [d] u = 0 := by
            simp [countUrl, List.filter_singleton, hu]
          omega

theorem processBatch_countUrl_ge_one (cfg : PipelineConfig) :
    ∀ (batch : List (RawListing × ListingOracle)) (st st' : List Deal)
      (u : Option String), processBatch cfg st batch = .ok st' →
      (∃ p ∈ batch, p.1.listing_url = u) → 1 ≤ countUrl st' u := by
  intro batch
  induction batch with
  | nil =>
      intro st st' u h hmem
      obtain ⟨p, hp, -⟩ := hmem
      exact absurd hp (List.not_mem_nil p)
  | cons q rest ih =>
      intro st st' u h hmem
      obtain ⟨raw, o⟩ := q
      unfold processBatch at h
      rcases hstep : processListing cfg st raw o with e | r
      · rw [hstep] at h
        exact absurd h (by simp)
      rw [hstep] at h
      obtain ⟨p, hp, hpu⟩ := hmem
      rcases List.mem_cons.mp hp with rfl | hp'
      · rcases r with _ | ⟨d, notifs⟩
        · have hany := processListing_ok_none cfg st raw o hstep
          have h1 : 1 ≤ countUrl st u := by
            rw [← hpu]
            exact (any_url_eq_true_iff st raw.listing_url).mp hany
          exact le_trans h1 (processBatch_countUrl_mono cfg rest st st' u h)
        · obtain ⟨-, hurl⟩ := processListing_ok_some cfg st raw o d notifs hstep
          have h1 : 1 ≤ countUrl (st ++ [d]) u := by
            rw [countUrl_append]
            have hdu : d.listing_url = u := by
              rw [hurl]
              exact hpu
            have : countUrl [d] u = 1 := by
              simp [countUrl, List.filter_singleton, hdu]
            omega
          exact le_trans h1 (processBatch_countUrl_mono cfg rest (st ++ [d]) st' u h)
      · rcases r with _ | ⟨d, notifs⟩
        · exact ih st st' u h ⟨p, hp', hpu⟩
        · exact ih (st ++ [d]) st' u h ⟨p, hp', hpu⟩

/-! ### The C9 claim -/

/-- C9: dedup is idempotent over `listing_url` — a listing whose url is
already stored is discarded as a no-op, so a url submitted in one intake run
yields exactly one stored deal no matter how often it is resubmitted in a
later run over any state; and an intake run only appends deals, whose urls
form an order-preserving subsequence of the delivered batch. -/
theorem dedup_idempotent :
    (∀ (cfg : PipelineConfig) (batch : List (RawListing × ListingOracle))
        (st st' : List Deal), processBatch cfg st batch = .ok st' →
      ∃ suffix, st' = st ++ suffix ∧
        List.Sublist (suffix.map Deal.listing_url)
          (batch.map (fun p => p.1.listing_url))) ∧
    (∀ (cfg₁ cfg₂ : PipelineConfig)
        (b1 b2 : List (RawListing × ListingOracle)) (u : Option String)
        (st1 st2 : List Deal),
      processBatch cfg₁ [] b1 = .ok st1 →
      processBatch cfg₂ st1 b2 = .ok st2 →
      (∃ p ∈ b1, p.1.listing_url = u) →
      countUrl st2 u = 1) := by
  refine ⟨fun cfg batch st st' h => processBatch_append_only cfg batch st st' h,
    fun cfg₁ cfg₂ b1 b2 u st1 st2 h1 h2 hmem => ?_⟩
  have hz : countUrl [] u = 0 := rfl
  have hle1 : countUrl st1 u ≤ 1 :=
    processBatch_countUrl_le_one cfg₁ b1 [] st1 u h1 (by omega)
  have hge1 : 1 ≤ countUrl st1 u :=
    processBatch_countUrl_ge_one cfg₁ b1 [] st1 u h1 hmem
  have hle2 : countUrl st2 u ≤ 1 :=
    processBatch_countUrl_le_one cfg₂ b2 st1 st2 u h2 hle1
  have hge2 : 1 ≤ countUrl st2 u :=
    le_trans hge1 (processBatch_countUrl_mono cfg₂ b2 st1 st2 u h2)
  omega

/-- Witness for C9: the same listing url submitted in two one-listing runs
yields exactly one stored deal. -/
theorem dedup_idempotent_witness :
    ∃ st1 st2 : List Deal,
      processBatch {} []
          [({ listing_url := some "u" }, { flush := .ok () })] = .ok st1 ∧
      processBatch {} st1
          [({ listing_url := some "u" }, { flush := .ok () })] = .ok st2 ∧
      countUrl st2 (some "u") = 1 := by
  refine ⟨[mkDealFromRaw 0 { listing_url := some "u" } none],
    [mkDealFromRaw 0 { listing_url := some "u" } none], rfl, rfl, ?_⟩
  exact dedup_idempotent.2 {} {}
    [({ listing_url := some "u" }, { flush := .ok () })]
    [({ listing_url := some "u" }, { flush := .ok () })]
    (some "u") _ _ rfl rfl
    ⟨({ listing_url := some "u" }, { flush := .ok () }), by simp, rfl⟩

/-! ## Claim C1 — order reconciliation matching

The matching loop can never complete a single match: on the first line item
that matches an active flip, `flip.calculate_profit()` subtracts the Decimal
`buy_price` from the float `sell_price` the loop just assigned and raises
`TypeError`, which no handler in `sync_sold_items` catches.  So a run either
raises (whenever some fulfilled line item matches) or returns with nothing
synced and the flips untouched. -/

theorem markSold_raises (fee_rate : ℚ) (order_date : String) (price : ℚ)
    (f : Flip) :
    markSold fee_rate order_date price f = .error pyFloatDecTypeError := rfl

theorem syncItem_cases (lookup : String → Option ℕ) (fee_rate : ℚ)
    (order_date : String) (st : SyncState) (it : LineItem) :
    syncItem lookup fee_rate order_date st it = .ok st ∨
    syncItem lookup fee_rate order_date st it = .error pyFloatDecTypeError := by
  unfold syncItem
  rcases itemMatch lookup it with _ | fid
  · exact Or.inl rfl
  · dsimp only []
    simp only [markSold_raises]
    generalize List.find? (fun f => decide (f.id = fid)) st.flips = r
    rcases r with _ | flip
    · exact Or.inl rfl
    · exact Or.inr rfl

theorem foldlM_syncItem_cases (lookup : String → Option ℕ) (fee_rate : ℚ)
    (order_date : String) :
    ∀ (items : List LineItem) (st : SyncState),
      items.foldlM (syncItem lookup fee_rate order_date) st = .ok st ∨
      items.foldlM (syncItem lookup fee_rate order_date) st =
        .error pyFloatDecTypeError := by
  intro items
  induction items with
  | nil => intro st; exact Or.inl rfl
  | cons it items ih =>
      intro st
      rw [List.foldlM_cons]
      rcases syncItem_cases lookup fee_rate order_date st it with h | h
      · rw [h]
        exact ih st
      · rw [h]
        exact Or.inr rfl

theorem syncOrder_cases (lookup : String → Option ℕ) (fee_rate : ℚ)
    (st : SyncState) (o : EbayOrder) :
    syncOrder lookup fee_rate st o = .ok st ∨
    syncOrder lookup fee_rate st o = .error pyFloatDecTypeError := by
  unfold syncOrder
  split_ifs
  · exact foldlM_syncItem_cases lookup fee_rate o.order_date o.items st
  · exact Or.inl rfl

theorem foldlM_syncOrder_cases (lookup : String → Option ℕ) (fee_rate : ℚ) :
    ∀ (orders : List EbayOrder) (st : SyncState),
      orders.foldlM (syncOrder lookup fee_rate) st = .ok st ∨
      orders.foldlM (syncOrder lookup fee_rate) st =
        .error pyFloatDecTypeError := by
  intro orders
  induction orders with
  | nil => intro st; exact Or.inl rfl
  | cons o orders ih =>
      intro st
      rw [List.foldlM_cons]
      rcases syncOrder_cases lookup fee_rate st o with h | h
      · rw [h]
        exact ih st
      · rw [h]
        exact Or.inr rfl

/-- C1 (code bug): `sync_sold_items` can never match a flip at most once —
it can never match one at all.  Every run either returns with zero synced
items and the flips exactly as they were, or raises the `TypeError` from
`flip.calculate_profit()` (float `sell_price` minus Decimal `buy_price`);
the failing input — one active flip with listing id "L" and one fulfilled
order whose line item carries "L" — takes the raising branch, so the
mark-sold / remove-from-lookup behavior the claim describes is unreachable
and nothing is ever committed. -/
theorem sync_typeerror_no_sync :
    (∀ (fee_rate : ℚ) (flips : List Flip) (orders : List EbayOrder),
      sync_sold_items fee_rate flips orders =
          .ok { flips := flips, synced := 0, synced_flip_ids := [] } ∨
      sync_sold_items fee_rate flips orders = .error pyFloatDecTypeError) ∧
    sync_sold_items (13/100)
        [{ id := 1, item_name := "x", buy_price := 10,
            ebay_listing_id := some "L" }]
        [{ order_status := "FULFILLED", order_date := "2024-01-01",
            items := [{ listing_id := some "L", sell_price := 30 }] }] =
      .error pyFloatDecTypeError := by
  constructor
  · intro fee_rate flips orders
    exact foldlM_syncOrder_cases (flipByListing flips) fee_rate orders
      { flips := flips, synced := 0, synced_flip_ids := [] }
  · rfl

end DealScout
